import Mathlib

/-!
Shallow embedding of apollo-link-persisted-queries (src/index.ts).

The embedding mirrors the source file:
* the default disable policy (defaultOptions.disable),
* per-document hash memoization (getQueryHash, with the hash store keyed by
  document identity and a per-link child key, as the source stores hashes on
  the document object under a per-link key, the string forLink plus a counter),
* the request state machine of the link handler: first attempt decoration
  (includeQuery / includeExtensions / persistedQuery extension / optional GET
  method override) and the retry handler, which classifies the first failure
  outcome, may flip the link-level supportsPersistedQueries flag, and
  re-forwards the operation with the full document at most once.

Downstream outcomes (next / error / complete notifications from the forwarded
subscription, together with the transport response the downstream link records
in the operation context) are modelled as an explicit event list folded over
the request state.  Invocations of the pluggable disable predicate and of
generateHash are counted for the memoization and classification claims.
-/

namespace PQ

/-- Message-bearing GraphQL error, as inspected by the source policies. -/
structure GraphQLError where
  message : String
deriving DecidableEq, Repr

/-- Execution result delivered by the downstream link: optional errors array
(present even when empty, matching JS truthiness of an empty array) and an
opaque data payload used only to distinguish results. -/
structure ExecutionResult where
  errors : Option (List GraphQLError)
  payload : Option Nat
deriving DecidableEq, Repr

/-- Transport-level error delivered on the error channel (opaque). -/
structure NetworkError where
  message : String
deriving DecidableEq, Repr

/-- Error thrown by the pluggable generateHash function (opaque). -/
structure HashFailure where
  message : String
deriving DecidableEq, Repr

/-- Raw transport response recorded in the operation context by the http link;
status is absent when the failure carried no classifiable status. -/
structure Response where
  status : Option Nat
deriving DecidableEq, Repr

/-- Transport hint flags the link writes into the operation context. -/
structure HttpFlags where
  includeQuery : Bool
  includeExtensions : Bool
deriving DecidableEq, Repr

/-- Fetch options in the operation context: the method field the link may
override, plus an opaque remainder preserved by Object.assign. -/
structure FetchOptions where
  method : Option String
  extra : Nat
deriving DecidableEq, Repr

/-- Kind of a GraphQL operation definition. -/
inductive OperationType where
  | query
  | mutation
  | subscription
deriving DecidableEq, Repr

/-- Definition node of a document: an operation definition with its operation
kind, or any other definition kind (fragments etc.). -/
inductive DefinitionNode where
  | operationDefinition (operation : OperationType)
  | otherDefinition
deriving DecidableEq, Repr

/-- Document AST node: its list of definitions. -/
structure DocumentNode where
  definitions : List DefinitionNode
deriving DecidableEq, Repr

/-- Value passed as operation.query: null, a non-object value, or a document
object carrying an identity (JS reference identity) and its AST. -/
inductive QueryVal where
  | null
  | nonObject (v : String)
  | doc (id : Nat) (node : DocumentNode)
deriving DecidableEq, Repr

/-- The persistedQuery extension block attached to the operation. -/
structure PersistedQueryExt where
  version : Nat
  sha256Hash : String
deriving DecidableEq, Repr

/-- Operation extensions (only the persistedQuery block is relevant). -/
structure Extensions where
  persistedQuery : Option PersistedQueryExt
deriving DecidableEq, Repr

/-- Mutable operation context threaded through the link chain. -/
structure OpContext where
  http : HttpFlags
  fetchOptions : FetchOptions
  response : Option Response
deriving DecidableEq, Repr

/-- One logical GraphQL operation. -/
structure Operation where
  query : QueryVal
  extensions : Extensions
  ctx : OpContext
deriving DecidableEq, Repr

/-- Payload handed to the (pluggable) disable predicate: the failing result,
the network error, the application errors taken from the result, and the
operation context readable via operation.getContext(). -/
structure DisablePayload where
  response : Option ExecutionResult
  networkError : Option NetworkError
  graphQLErrors : Option (List GraphQLError)
  context : OpContext

/-- Link configuration after merging user options over the defaults:
generateHash may throw (Except), disable is the full replacement predicate,
useGETForHashedQueries toggles the GET optimization. -/
structure Options where
  generateHash : QueryVal → Except HashFailure String
  disable : DisablePayload → Bool
  useGETForHashedQueries : Bool

/-- Protocol version constant from the source. -/
def VERSION : Nat := 1

/-- Tests whether an optional errors array contains a given message, matching
the source pattern (errors present and errors.some on the message). -/
def hasMessage (errs : Option (List GraphQLError)) (msg : String) : Bool :=
  match errs with
  | some es => es.any (fun e => e.message == msg)
  | none => false

/-- The default disable policy, defaultOptions.disable from the source: true
when the application errors contain a message exactly PersistedQueryNotSupported,
or when the context exposes a response whose status is truthy and equals 400 or
500; false otherwise. -/
def defaultDisable (p : DisablePayload) : Bool :=
  if hasMessage p.graphQLErrors ("PersistedQueryNotSupported") then
    true
  else
    match p.context.response with
    | some r =>
      match r.status with
      | some s => (s != 0) && (s == 400 || s == 500)
      | none => false
    | none => false

/-- definitionIsMutation from the source. -/
def definitionIsMutation (d : DefinitionNode) : Bool :=
  match d with
  | .operationDefinition .mutation => true
  | _ => false

/-- Definitions of the operation query; the source would fail on a non-object
query here, but that path is never combined with the GET optimization. -/
def queryDefinitions : QueryVal → List DefinitionNode
  | .doc _ node => node.definitions
  | _ => []

/-- operationIsQuery from the source: true when no definition is a mutation
(note this also returns true for subscriptions). -/
def operationIsQuery (op : Operation) : Bool :=
  !((queryDefinitions op.query).any definitionIsMutation)

/-- Hash store: for each document identity and each link child key, the cached
hash string, if any.  Models the hidden hashes property the source installs on
the document object, whose children are keyed per link instance. -/
abbrev HashStore : Type := Nat → Nat → Option String

/-- Empty hash store. -/
def HashStore.empty : HashStore := fun _ _ => none

/-- Cache a hash for a document identity under a link child key. -/
def HashStore.insert (s : HashStore) (docId childKey : Nat) (h : String) :
    HashStore :=
  fun d c => if d = docId ∧ c = childKey then some h else s d c

/-- getQueryHash from the source.  Returns the hash (or the generateHash
failure), the updated store, and the number of generateHash invocations made
by this call.  Null / non-object queries bypass the cache entirely; for a
document object, a cache hit returns the stored hash without invoking
generateHash, a miss invokes it and caches the result only on success. -/
def getQueryHash (generateHash : QueryVal → Except HashFailure String)
    (childKey : Nat) (store : HashStore) (query : QueryVal) :
    Except HashFailure String × HashStore × Nat :=
  match query with
  | .null => (generateHash query, store, 1)
  | .nonObject _ => (generateHash query, store, 1)
  | .doc id _ =>
    match store id childKey with
    | some h => (Except.ok h, store, 0)
    | none =>
      match generateHash query with
      | Except.ok h => (Except.ok h, store.insert id childKey h, 1)
      | Except.error e => (Except.error e, store, 1)

/-- Error delivered to the caller-facing observer: either the hashing error
caught at decoration time, or a downstream network error. -/
inductive LinkError where
  | hashError (e : HashFailure)
  | networkError (e : NetworkError)
deriving DecidableEq, Repr

/-- Snapshot of the operation at the moment it is forwarded downstream: the
persistedQuery extension and the transport hints in force for that attempt. -/
structure ForwardSnapshot where
  persistedQuery : Option PersistedQueryExt
  http : HttpFlags
  fetchOptions : FetchOptions
deriving DecidableEq, Repr

/-- Observable behavior of the link during one logical request: physical
forwards downstream and notifications relayed to the caller. -/
inductive Action where
  | relayNext (r : ExecutionResult)
  | relayError (e : LinkError)
  | relayComplete
  | forward (snap : ForwardSnapshot)
deriving DecidableEq, Repr

/-- Snapshot of an operation as forwarded. -/
def snapshotOf (op : Operation) : ForwardSnapshot :=
  { persistedQuery := op.extensions.persistedQuery
    http := op.ctx.http
    fetchOptions := op.ctx.fetchOptions }

/-- Downstream notification: a result or a network error, each carrying the
transport response the downstream link recorded in the operation context
before notifying, or stream completion. -/
inductive Event where
  | next (r : ExecutionResult) (ctxResponse : Option Response)
  | error (e : NetworkError) (ctxResponse : Option Response)
  | complete
deriving DecidableEq, Repr

/-- State of one in-flight logical request: the retried latch, the link-level
supportsPersistedQueries flag (a closure variable of the link, threaded
through), the operation (mutated in place by the source), the saved original
fetch options when the GET override was applied, and an instrumentation
counter of disable-predicate invocations. -/
structure ReqState where
  retried : Bool
  supportsPersistedQueries : Bool
  op : Operation
  originalFetchOptions : Option FetchOptions
  classifications : Nat
deriving Repr

/-- Argument pair of the source retry helper. -/
structure RetryInput where
  response : Option ExecutionResult
  networkError : Option NetworkError

/-- Guard of the retry helper: first outcome not yet retried, and the outcome
is a failure (a result whose errors field is present, or a network error). -/
def firstFailureGuard (retried : Bool) (inp : RetryInput) : Bool :=
  !retried &&
    ((inp.response.map fun r => r.errors.isSome).getD false
      || inp.networkError.isSome)

/-- Whether the outcome carries an application error with message exactly
PersistedQueryNotFound. -/
def notFoundIn (inp : RetryInput) : Bool :=
  match inp.response with
  | some r => hasMessage r.errors ("PersistedQueryNotFound")
  | none => false

/-- The disablePayload built by the source retry helper. -/
def mkPayload (ctx : OpContext) (inp : RetryInput) : DisablePayload :=
  { response := inp.response
    networkError := inp.networkError
    graphQLErrors := inp.response.bind (fun r => r.errors)
    context := ctx }

/-- The retry helper from the source.  On the first failure outcome it
reassigns supportsPersistedQueries to the negated disable verdict, then either
re-forwards the operation with includeQuery true, includeExtensions equal to
the updated flag, and the original fetch options restored when the GET
override had been applied, or relays the outcome.  Any other outcome is
relayed unchanged. -/
def retryStep (opts : Options) (s : ReqState) (inp : RetryInput)
    (relay : Action) : ReqState × List Action :=
  if firstFailureGuard s.retried inp then
    let supports := !opts.disable (mkPayload s.op.ctx inp)
    let s1 : ReqState :=
      { s with
        retried := true
        supportsPersistedQueries := supports
        classifications := s.classifications + 1 }
    if notFoundIn inp || !supports then
      let op1 : Operation :=
        { s1.op with
          ctx :=
            { s1.op.ctx with
              http := { includeQuery := true, includeExtensions := supports } } }
      let op2 : Operation :=
        match s1.originalFetchOptions with
        | some fo => { op1 with ctx := { op1.ctx with fetchOptions := fo } }
        | none => op1
      ({ s1 with op := op2 }, [Action.forward (snapshotOf op2)])
    else
      (s1, [relay])
  else
    (s, [relay])

/-- Record in the operation context the transport response the downstream
link set before notifying. -/
def applyCtxResponse (op : Operation) (r : Option Response) : Operation :=
  { op with ctx := { op.ctx with response := r } }

/-- Retry-helper argument corresponding to an event. -/
def eventInput : Event → RetryInput
  | .next r _ => { response := some r, networkError := none }
  | .error e _ => { response := none, networkError := some e }
  | .complete => { response := none, networkError := none }

/-- Operation after the downstream link recorded its transport response. -/
def eventOpUpdate (op : Operation) : Event → Operation
  | .next _ cr => applyCtxResponse op cr
  | .error _ cr => applyCtxResponse op cr
  | .complete => op

/-- The relay the handler performs for an event when no retry fires. -/
def verbatimRelay : Event → Action
  | .next r _ => Action.relayNext r
  | .error e _ => Action.relayError (LinkError.networkError e)
  | .complete => Action.relayComplete

/-- The subscription handler from the source: next and error go through the
retry helper; complete is relayed directly to the caller. -/
def step (opts : Options) (s : ReqState) (ev : Event) :
    ReqState × List Action :=
  match ev with
  | .complete => (s, [Action.relayComplete])
  | _ =>
    let s1 : ReqState := { s with op := eventOpUpdate s.op ev }
    retryStep opts s1 (eventInput ev) (verbatimRelay ev)

/-- Fold the handler over the delivered downstream events. -/
def runEvents (opts : Options) (s : ReqState) :
    List Event → ReqState × List Action
  | [] => (s, [])
  | ev :: rest =>
    ((runEvents opts (step opts s ev).1 rest).1,
      (step opts s ev).2 ++ (runEvents opts (step opts s ev).1 rest).2)

/-- Outcome of setting up one logical request (the link handler body up to and
including the first forward): the subscription state if one was created, the
actions performed, the hash store after decoration, and the number of
generateHash invocations. -/
structure InitResult where
  sub : Option ReqState
  actions : List Action
  store : HashStore
  hashInvocations : Nat

/-- The link handler body from the source, for one logical request, given the
link-level supportsPersistedQueries flag.  When the flag is set, the hash is
computed and attached as extensions.persistedQuery (a generateHash failure is
delivered as the observer error with no forward).  The http context flags are
then set (includeQuery is the negated flag, includeExtensions the flag), the
GET override is applied for non-mutating operations when configured, and the
operation is forwarded once. -/
def requestInit (opts : Options) (childKey : Nat) (store : HashStore)
    (supportsPQ : Bool) (op : Operation) : InitResult :=
  let hashed :
      Operation × Option HashFailure × HashStore × Nat :=
    if supportsPQ then
      match getQueryHash opts.generateHash childKey store op.query with
      | (Except.ok h, store1, n) =>
        ({ op with
           extensions :=
             { persistedQuery := some { version := VERSION, sha256Hash := h } } },
          none, store1, n)
      | (Except.error e, store1, n) => (op, some e, store1, n)
    else
      (op, none, store, 0)
  match hashed with
  | (_, some e, store1, n) =>
    { sub := none
      actions := [Action.relayError (LinkError.hashError e)]
      store := store1
      hashInvocations := n }
  | (op1, none, store1, n) =>
    let op2 : Operation :=
      { op1 with
        ctx :=
          { op1.ctx with
            http :=
              { includeQuery := !supportsPQ
                includeExtensions := supportsPQ } } }
    let getApplied : Bool :=
      opts.useGETForHashedQueries && supportsPQ && operationIsQuery op2
    let op3 : Operation :=
      { op2 with
        ctx :=
          { op2.ctx with
            fetchOptions :=
              if getApplied then
                { op2.ctx.fetchOptions with method := some ("GET") }
              else
                op2.ctx.fetchOptions } }
    { sub := some
        { retried := false
          supportsPersistedQueries := supportsPQ
          op := op3
          originalFetchOptions :=
            if getApplied then some op2.ctx.fetchOptions else none
          classifications := 0 }
      actions := [Action.forward (snapshotOf op3)]
      store := store1
      hashInvocations := n }

/-- Observable summary of one logical request: the link-level flag afterwards,
the hash store afterwards, all actions in order, and the instrumentation
counters. -/
structure RequestResult where
  supportsPersistedQueries : Bool
  store : HashStore
  actions : List Action
  classifications : Nat
  hashInvocations : Nat

/-- One logical request through the link: set up and forward, then process the
delivered downstream events.  When setup failed (hashing error), there is no
subscription, so no events are processed and the flag is unchanged. -/
def runRequest (opts : Options) (childKey : Nat) (supportsPQ : Bool)
    (store : HashStore) (op : Operation) (events : List Event) :
    RequestResult :=
  let ini := requestInit opts childKey store supportsPQ op
  match ini.sub with
  | none =>
    { supportsPersistedQueries := supportsPQ
      store := ini.store
      actions := ini.actions
      classifications := 0
      hashInvocations := ini.hashInvocations }
  | some s0 =>
    let run := runEvents opts s0 events
    { supportsPersistedQueries := run.1.supportsPersistedQueries
      store := ini.store
      actions := ini.actions ++ run.2
      classifications := run.1.classifications
      hashInvocations := ini.hashInvocations }

/-- A constructed link instance: its merged options and the child key under
which it namespaces cached hashes (the source key is the string forLink
followed by the module-level counter, injective in the counter; the counter
value itself is used here). -/
structure LinkInstance where
  options : Options
  childKey : Nat

/-- createPersistedQueryLink, threading the module-level child-key counter:
each construction takes the current counter as its private child key and
increments the counter.  The link starts with supportsPersistedQueries true. -/
def createPersistedQueryLink (opts : Options) (nextHashesChildKey : Nat) :
    LinkInstance × Nat :=
  ({ options := opts, childKey := nextHashesChildKey },
    nextHashesChildKey + 1)

/-- Whether an action is a physical forward. -/
def isForward : Action → Bool
  | .forward _ => true
  | _ => false

/-- Number of physical forwards among a list of actions. -/
def countForwards (acts : List Action) : Nat :=
  (acts.filter isForward).length

/-- Whether an event is a failure outcome in the sense of the retry guard. -/
def eventIsFailure : Event → Bool
  | .next r _ => r.errors.isSome
  | .error _ _ => true
  | .complete => false

/-- Whether an event carries a PersistedQueryNotFound application error. -/
def eventHasNotFound : Event → Bool
  | .next r _ => hasMessage r.errors ("PersistedQueryNotFound")
  | _ => false

/-- The disable payload the handler would build for an event in a state. -/
def payloadOfEvent (s : ReqState) (ev : Event) : DisablePayload :=
  mkPayload (eventOpUpdate s.op ev).ctx (eventInput ev)

/-! Concrete fixtures used by witnesses and counterexamples. -/

/-- A generateHash stand-in that always succeeds. -/
def hashOk : QueryVal → Except HashFailure String :=
  fun _ => Except.ok ("h0")

/-- A generateHash stand-in that always throws. -/
def hashFail : QueryVal → Except HashFailure String :=
  fun _ => Except.error { message := "could not hash" }

/-- A one-definition query document. -/
def sampleNode : DocumentNode :=
  { definitions := [DefinitionNode.operationDefinition OperationType.query] }

/-- A document object with identity 0. -/
def sampleQuery : QueryVal := QueryVal.doc 0 sampleNode

/-- A fresh operation context. -/
def baseCtx : OpContext :=
  { http := { includeQuery := true, includeExtensions := false }
    fetchOptions := { method := some ("POST"), extra := 5 }
    response := none }

/-- A fresh operation over the sample document. -/
def sampleOp : Operation :=
  { query := sampleQuery, extensions := { persistedQuery := none }, ctx := baseCtx }

/-- Options as merged when the caller supplies only a generateHash: the
default disable policy and useGETForHashedQueries false. -/
def optsDefault : Options :=
  { generateHash := hashOk, disable := defaultDisable
    useGETForHashedQueries := false }

/-- Options with the failing hash function. -/
def optsFail : Options :=
  { generateHash := hashFail, disable := defaultDisable
    useGETForHashedQueries := false }

/-- Options with the GET optimization enabled. -/
def optsGET : Options :=
  { generateHash := hashOk, disable := defaultDisable
    useGETForHashedQueries := true }

/-- A downstream network error with no recorded transport response. -/
def evNetworkError : Event :=
  Event.error { message := "connection reset" } none

/-- A result whose errors declare persisted queries unsupported. -/
def evNotSupported : Event :=
  Event.next
    { errors := some [{ message := "PersistedQueryNotSupported" }]
      payload := none }
    none

/-- A result whose errors report the hash as not found. -/
def evNotFound : Event :=
  Event.next
    { errors := some [{ message := "PersistedQueryNotFound" }]
      payload := none }
    none

/-- A successful result with no errors. -/
def evSuccess : Event :=
  Event.next { errors := none, payload := some 7 } none

/-- A request state whose retried latch is already set. -/
def retriedState : ReqState :=
  { retried := true
    supportsPersistedQueries := false
    op := sampleOp
    originalFetchOptions := none
    classifications := 1 }

/-- A fresh request state for a hash-first attempt. -/
def freshState : ReqState :=
  { retried := false
    supportsPersistedQueries := true
    op := sampleOp
    originalFetchOptions := none
    classifications := 0 }

end PQ

namespace PQ

/-! Helper lemmas. -/

/-- Cache lookup after an insert under the same keys. -/
lemma HashStore.insert_same (s : HashStore) (id ck : Nat) (h : String) :
    HashStore.insert s id ck h id ck = some h := by
  simp [HashStore.insert]

/-- Cache lookup after an insert under a different child key. -/
lemma HashStore.insert_other_child (s : HashStore) (id ck : Nat) (h : String)
    (d c : Nat) (hc : c ≠ ck) : HashStore.insert s id ck h d c = s d c := by
  simp [HashStore.insert]
  intro _ hcc
  exact absurd hcc hc

/-- Forward count distributes over append. -/
lemma countForwards_append (a b : List Action) :
    countForwards (a ++ b) = countForwards a + countForwards b := by
  simp [countForwards, List.filter_append]

/-- Unfolding of getQueryHash on a document object. -/
lemma getQueryHash_doc (g : QueryVal → Except HashFailure String)
    (ck id : Nat) (node : DocumentNode) (store : HashStore) :
    getQueryHash g ck store (QueryVal.doc id node) =
      match store id ck with
      | some h => (Except.ok h, store, 0)
      | none =>
        match g (QueryVal.doc id node) with
        | Except.ok h => (Except.ok h, store.insert id ck h, 1)
        | Except.error e => (Except.error e, store, 1) := rfl

/-- Membership reading of hasMessage. -/
lemma hasMessage_iff (errs : Option (List GraphQLError)) (msg : String) :
    hasMessage errs msg = true ↔
      ∃ es, errs = some es ∧ ∃ e ∈ es, e.message = msg := by
  cases errs with
  | none => simp [hasMessage]
  | some es => simp [hasMessage, List.any_eq_true]

/-- C3: the default disable policy returns true exactly when the application
errors contain an entry whose message is exactly PersistedQueryNotSupported,
or the operation context exposes a response whose status code is exactly 400
or exactly 500; in every other case it returns false. -/
theorem defaultDisable_iff (p : DisablePayload) :
    defaultDisable p = true ↔
      ((∃ es, p.graphQLErrors = some es ∧
          ∃ e ∈ es, e.message = "PersistedQueryNotSupported") ∨
        (∃ r, p.context.response = some r ∧
          (r.status = some 400 ∨ r.status = some 500))) := by
  rcases p with ⟨resp, ne, ge, ⟨http, fo, ctxResp⟩⟩
  simp only [defaultDisable]
  by_cases hm : hasMessage ge ("PersistedQueryNotSupported") = true
  · rw [if_pos hm]
    simp only [true_iff]
    exact Or.inl ((hasMessage_iff ge _).mp hm)
  · rw [if_neg hm]
    have hges : ¬ ∃ es, ge = some es ∧
        ∃ e ∈ es, e.message = "PersistedQueryNotSupported" := by
      intro hc
      exact hm ((hasMessage_iff ge _).mpr hc)
    simp only [hges, false_or]
    cases ctxResp with
    | none => simp
    | some r =>
      rcases r with ⟨st⟩
      cases st with
      | none => simp
      | some s =>
        simp only [Option.some.injEq, Bool.and_eq_true, Bool.or_eq_true,
          beq_iff_eq, bne_iff_ne, ne_eq]
        constructor
        · intro h
          exact ⟨{ status := some s }, rfl, by
            rcases h.2 with h4 | h5
            · exact Or.inl (by rw [h4])
            · exact Or.inr (by rw [h5])⟩
        · rintro ⟨r2, hr2, hs2⟩
          subst hr2
          simp only [Option.some.injEq] at hs2
          rcases hs2 with rfl | rfl <;> exact ⟨by omega, by omega⟩

/-- C10: a null or non-object query bypasses the per-document cache entirely:
generateHash is invoked on every call (invocation count 1) and nothing is
memoized (the store is returned unchanged), the result being whatever
generateHash decides. -/
theorem getQueryHash_nonobject_bypass
    (g : QueryVal → Except HashFailure String) (ck : Nat) (store : HashStore) :
    (∀ v, getQueryHash g ck store (QueryVal.nonObject v)
        = (g (QueryVal.nonObject v), store, 1)) ∧
    getQueryHash g ck store QueryVal.null = (g QueryVal.null, store, 1) :=
  ⟨fun _ => rfl, rfl⟩

/-- C7: for a document object, once a hash computation has succeeded the
result is cached, so a repeat call returns the cached string with zero
generateHash invocations (and any single call invokes it at most once); if
generateHash throws, nothing is cached — the store is unchanged and the
invocation still counted, so a later call invokes generateHash again. -/
theorem getQueryHash_memoizes
    (g : QueryVal → Except HashFailure String) (ck id : Nat)
    (node : DocumentNode) (store : HashStore) :
    (getQueryHash g ck store (QueryVal.doc id node)).2.2 ≤ 1 ∧
    (∀ h store1 n,
        getQueryHash g ck store (QueryVal.doc id node)
            = (Except.ok h, store1, n) →
          getQueryHash g ck store1 (QueryVal.doc id node)
            = (Except.ok h, store1, 0)) ∧
    (∀ e store1 n,
        getQueryHash g ck store (QueryVal.doc id node)
            = (Except.error e, store1, n) →
          store1 = store ∧ n = 1) := by
  refine ⟨?_, ?_, ?_⟩
  · rw [getQueryHash_doc]
    cases hs : store id ck with
    | some h => simp
    | none =>
      cases hg : g (QueryVal.doc id node) with
      | ok h => simp
      | error e => simp
  · intro h store1 n hcall
    rw [getQueryHash_doc] at hcall
    cases hs : store id ck with
    | some h2 =>
      rw [hs] at hcall
      simp only [Prod.mk.injEq, Except.ok.injEq] at hcall
      obtain ⟨rfl, rfl, rfl⟩ := hcall
      rw [getQueryHash_doc, hs]
    | none =>
      rw [hs] at hcall
      cases hg : g (QueryVal.doc id node) with
      | ok h3 =>
        rw [hg] at hcall
        simp only [Prod.mk.injEq, Except.ok.injEq] at hcall
        obtain ⟨rfl, rfl, rfl⟩ := hcall
        rw [getQueryHash_doc, HashStore.insert_same]
      | error e =>
        rw [hg] at hcall
        simp at hcall
  · intro e store1 n hcall
    rw [getQueryHash_doc] at hcall
    cases hs : store id ck with
    | some h2 =>
      rw [hs] at hcall
      simp at hcall
    | none =>
      rw [hs] at hcall
      cases hg : g (QueryVal.doc id node) with
      | ok h3 =>
        rw [hg] at hcall
        simp at hcall
      | error e2 =>
        rw [hg] at hcall
        simp only [Prod.mk.injEq, Except.error.injEq] at hcall
        obtain ⟨rfl, rfl, rfl⟩ := hcall
        exact ⟨rfl, rfl⟩

/-- A getQueryHash call under one child key leaves the cache under any other
child key unobservable: looking up with a different child key behaves (result
and generateHash invocation count) as on the original store. -/
lemma getQueryHash_other_child
    (g1 g2 : QueryVal → Except HashFailure String) (ck1 ck2 : Nat)
    (hck : ck2 ≠ ck1) (store : HashStore) (q : QueryVal)
    (r1 : Except HashFailure String) (store1 : HashStore) (n1 : Nat)
    (hcall : getQueryHash g1 ck1 store q = (r1, store1, n1)) :
    (getQueryHash g2 ck2 store1 q).1 = (getQueryHash g2 ck2 store q).1 ∧
    (getQueryHash g2 ck2 store1 q).2.2 = (getQueryHash g2 ck2 store q).2.2 := by
  cases q with
  | null =>
    simp only [getQueryHash, Prod.mk.injEq] at hcall
    obtain ⟨-, rfl, -⟩ := hcall
    exact ⟨rfl, rfl⟩
  | nonObject v =>
    simp only [getQueryHash, Prod.mk.injEq] at hcall
    obtain ⟨-, rfl, -⟩ := hcall
    exact ⟨rfl, rfl⟩
  | doc id node =>
    rw [getQueryHash_doc] at hcall
    cases hs : store id ck1 with
    | some h =>
      rw [hs] at hcall
      simp only [Prod.mk.injEq] at hcall
      obtain ⟨-, rfl, -⟩ := hcall
      exact ⟨rfl, rfl⟩
    | none =>
      rw [hs] at hcall
      cases hg : g1 (QueryVal.doc id node) with
      | error e =>
        rw [hg] at hcall
        simp only [Prod.mk.injEq] at hcall
        obtain ⟨-, rfl, -⟩ := hcall
        exact ⟨rfl, rfl⟩
      | ok h =>
        rw [hg] at hcall
        simp only [Prod.mk.injEq] at hcall
        obtain ⟨-, rfl, -⟩ := hcall
        have hl : HashStore.insert store id ck1 h id ck2 = store id ck2 :=
          HashStore.insert_other_child store id ck1 h id ck2 hck
        rw [getQueryHash_doc, getQueryHash_doc, hl]
        cases store id ck2 with
        | some h2 => exact ⟨rfl, rfl⟩
        | none =>
          cases g2 (QueryVal.doc id node) with
          | ok h3 => exact ⟨rfl, rfl⟩
          | error e3 => exact ⟨rfl, rfl⟩

/-- C8: two link instances constructed in succession get distinct child keys
from the module counter, and a hash cached through the first instance is not
observed by the second: the hash computation of the second instance over the store
the first one produced returns the same result with the same number of
generateHash invocations as over the original store. -/
theorem createPersistedQueryLink_no_cache_sharing
    (opts1 opts2 : Options) (c : Nat) (store : HashStore) (q : QueryVal) :
    (createPersistedQueryLink opts1 c).1.childKey ≠
        (createPersistedQueryLink opts2
          (createPersistedQueryLink opts1 c).2).1.childKey ∧
    ∀ r1 store1 n1,
      getQueryHash opts1.generateHash
          (createPersistedQueryLink opts1 c).1.childKey store q
          = (r1, store1, n1) →
        (getQueryHash opts2.generateHash
            (createPersistedQueryLink opts2
              (createPersistedQueryLink opts1 c).2).1.childKey store1 q).1
          = (getQueryHash opts2.generateHash
              (createPersistedQueryLink opts2
                (createPersistedQueryLink opts1 c).2).1.childKey store q).1 ∧
        (getQueryHash opts2.generateHash
            (createPersistedQueryLink opts2
              (createPersistedQueryLink opts1 c).2).1.childKey store1 q).2.2
          = (getQueryHash opts2.generateHash
              (createPersistedQueryLink opts2
                (createPersistedQueryLink opts1 c).2).1.childKey store q).2.2 := by
  refine ⟨by simp [createPersistedQueryLink], ?_⟩
  intro r1 store1 n1 hcall
  exact getQueryHash_other_child opts1.generateHash opts2.generateHash
    c (c + 1) (by omega) store q r1 store1 n1 hcall

/-- Witness for C8 at concrete inputs: the first instance caches a hash for
the sample document, and the second instance still invokes its own
generateHash once on the already-populated store. -/
theorem createPersistedQueryLink_no_cache_sharing_witness :
    (getQueryHash optsFail.generateHash
        (createPersistedQueryLink optsFail
          (createPersistedQueryLink optsDefault 0).2).1.childKey
        (getQueryHash optsDefault.generateHash
          (createPersistedQueryLink optsDefault 0).1.childKey
          HashStore.empty sampleQuery).2.1 sampleQuery).2.2
      = (getQueryHash optsFail.generateHash
          (createPersistedQueryLink optsFail
            (createPersistedQueryLink optsDefault 0).2).1.childKey
          HashStore.empty sampleQuery).2.2 :=
  ((createPersistedQueryLink_no_cache_sharing optsDefault optsFail 0
      HashStore.empty sampleQuery).2
    (Except.ok ("h0")) (HashStore.insert HashStore.empty 0 0 ("h0")) 1
    rfl).2

/-- C9: when the capability flag is set and generateHash throws for the
document of the request, the hashing error is the single terminal notification of
the request, no physical forward ever occurs, no classification runs, and the
capability flag is unchanged — whatever downstream events one imagines, since
no downstream subscription exists. -/
theorem runRequest_hash_failure_terminal (opts : Options) (ck : Nat)
    (store : HashStore) (op : Operation) (e : HashFailure)
    (store1 : HashStore) (n : Nat) (events : List Event)
    (hq : getQueryHash opts.generateHash ck store op.query
        = (Except.error e, store1, n)) :
    (runRequest opts ck true store op events).actions
        = [Action.relayError (LinkError.hashError e)] ∧
    countForwards (runRequest opts ck true store op events).actions = 0 ∧
    (runRequest opts ck true store op events).supportsPersistedQueries = true ∧
    (runRequest opts ck true store op events).classifications = 0 := by
  simp [runRequest, requestInit, hq, countForwards, isForward]

/-- Witness for C9: the failing hash function on the sample operation
delivers exactly the hashing error even with downstream events supplied. -/
theorem runRequest_hash_failure_terminal_witness :
    (runRequest optsFail 0 true HashStore.empty sampleOp
        [evSuccess]).actions
      = [Action.relayError (LinkError.hashError { message := "could not hash" })] :=
  (runRequest_hash_failure_terminal optsFail 0 HashStore.empty sampleOp
    { message := "could not hash" } HashStore.empty 1 [evSuccess] rfl).1

/-- C5: the first forwarded attempt of a logical request started with the
capability flag set carries includeQuery false, includeExtensions true and
the persistedQuery extension with version 1 and the hash of the document; started
with the flag unset, it carries includeQuery true, includeExtensions false
and no persistedQuery extension. -/
theorem requestInit_first_attempt_shape (opts : Options) (ck : Nat)
    (store : HashStore) (op : Operation) (h : String) (store1 : HashStore)
    (n : Nat)
    (hext : op.extensions.persistedQuery = none)
    (hq : getQueryHash opts.generateHash ck store op.query
        = (Except.ok h, store1, n)) :
    (∃ snap, (requestInit opts ck store true op).actions
          = [Action.forward snap] ∧
        snap.http.includeQuery = false ∧
        snap.http.includeExtensions = true ∧
        snap.persistedQuery = some { version := VERSION, sha256Hash := h }) ∧
    (∃ snap, (requestInit opts ck store false op).actions
          = [Action.forward snap] ∧
        snap.http.includeQuery = true ∧
        snap.http.includeExtensions = false ∧
        snap.persistedQuery = none) := by
  constructor
  · simp only [requestInit, hq]
    exact ⟨_, rfl, rfl, rfl, rfl⟩
  · exact ⟨_, rfl, rfl, rfl, hext⟩

/-- Witness for C5 at concrete inputs. -/
theorem requestInit_first_attempt_shape_witness :
    (∃ snap, (requestInit optsDefault 0 HashStore.empty true sampleOp).actions
          = [Action.forward snap] ∧
        snap.http.includeQuery = false ∧
        snap.http.includeExtensions = true ∧
        snap.persistedQuery
          = some { version := VERSION, sha256Hash := "h0" }) ∧
    (∃ snap, (requestInit optsDefault 0 HashStore.empty false sampleOp).actions
          = [Action.forward snap] ∧
        snap.http.includeQuery = true ∧
        snap.http.includeExtensions = false ∧
        snap.persistedQuery = none) :=
  requestInit_first_attempt_shape optsDefault 0 HashStore.empty sampleOp
    ("h0") (HashStore.insert HashStore.empty 0 0 ("h0")) 1 rfl rfl

/-- Witness for C7 at concrete inputs: a successful computation is cached so
the repeat call makes no generateHash invocation. -/
theorem getQueryHash_memoizes_witness :
    getQueryHash hashOk 0 (HashStore.insert HashStore.empty 0 0 ("h0"))
        (QueryVal.doc 0 sampleNode)
      = (Except.ok ("h0"), HashStore.insert HashStore.empty 0 0 ("h0"), 0) :=
  (getQueryHash_memoizes hashOk 0 0 sampleNode HashStore.empty).2.1
    ("h0") (HashStore.insert HashStore.empty 0 0 ("h0")) 1 rfl

/-! State-machine lemmas for the retry protocol. -/

/-- The operation as re-decorated by the retry branch: full document included,
extensions flag set from the given capability value, original fetch options
restored when the GET override had been applied. -/
def retriedOperation (s : ReqState) (supports : Bool) : Operation :=
  match s.originalFetchOptions with
  | some fo =>
    { s.op with
      ctx :=
        { s.op.ctx with
          http := { includeQuery := true, includeExtensions := supports }
          fetchOptions := fo } }
  | none =>
    { s.op with
      ctx :=
        { s.op.ctx with
          http := { includeQuery := true, includeExtensions := supports } } }

/-- Fields of the snapshot forwarded by the retry branch. -/
lemma snapshot_retriedOperation (s : ReqState) (supports : Bool) :
    (snapshotOf (retriedOperation s supports)).http
        = { includeQuery := true, includeExtensions := supports } ∧
    (snapshotOf (retriedOperation s supports)).persistedQuery
        = s.op.extensions.persistedQuery ∧
    (snapshotOf (retriedOperation s supports)).fetchOptions
        = (match s.originalFetchOptions with
            | some fo => fo
            | none => s.op.ctx.fetchOptions) := by
  cases hf : s.originalFetchOptions <;>
    simp [retriedOperation, snapshotOf, hf]

/-- The retry helper on an already-retried state relays unchanged. -/
lemma retryStep_retried_true (opts : Options) (s : ReqState)
    (inp : RetryInput) (relay : Action) (h : s.retried = true) :
    retryStep opts s inp relay = (s, [relay]) := by
  simp [retryStep, firstFailureGuard, h]

/-- The retry helper when the failure guard does not fire. -/
lemma retryStep_noguard (opts : Options) (s : ReqState) (inp : RetryInput)
    (relay : Action) (hg : firstFailureGuard s.retried inp = false) :
    retryStep opts s inp relay = (s, [relay]) := by
  simp [retryStep, hg]

/-- The retry helper when the guard fires and the retry condition holds:
classification runs, the flag becomes the negated disable verdict, and the
re-decorated operation is forwarded. -/
lemma retryStep_fire (opts : Options) (s : ReqState) (inp : RetryInput)
    (relay : Action)
    (hg : firstFailureGuard s.retried inp = true)
    (hc : (notFoundIn inp || opts.disable (mkPayload s.op.ctx inp)) = true) :
    retryStep opts s inp relay =
      ({ retried := true
         supportsPersistedQueries := !opts.disable (mkPayload s.op.ctx inp)
         op := retriedOperation s (!opts.disable (mkPayload s.op.ctx inp))
         originalFetchOptions := s.originalFetchOptions
         classifications := s.classifications + 1 },
        [Action.forward (snapshotOf (retriedOperation s
          (!opts.disable (mkPayload s.op.ctx inp))))]) := by
  have hc2 :
      (notFoundIn inp || !(!opts.disable (mkPayload s.op.ctx inp))) = true := by
    rw [Bool.not_not]
    exact hc
  simp only [retryStep, hg, if_true, hc2]
  cases hf : s.originalFetchOptions <;>
    simp [retriedOperation, hf]

/-- The retry helper when the guard fires but the retry condition fails:
classification runs and the outcome is relayed. -/
lemma retryStep_classify_relay (opts : Options) (s : ReqState)
    (inp : RetryInput) (relay : Action)
    (hg : firstFailureGuard s.retried inp = true)
    (hc : (notFoundIn inp || opts.disable (mkPayload s.op.ctx inp)) = false) :
    retryStep opts s inp relay =
      ({ retried := true
         supportsPersistedQueries := !opts.disable (mkPayload s.op.ctx inp)
         op := s.op
         originalFetchOptions := s.originalFetchOptions
         classifications := s.classifications + 1 }, [relay]) := by
  have hc2 :
      (notFoundIn inp || !(!opts.disable (mkPayload s.op.ctx inp))) = false := by
    rw [Bool.not_not]
    exact hc
  simp only [retryStep, hg, if_true, hc2]
  simp

/-- The failure guard on an event of a fresh request state coincides with
eventIsFailure. -/
lemma guard_eventInput (ev : Event) :
    firstFailureGuard false (eventInput ev) = eventIsFailure ev := by
  cases ev <;> simp [firstFailureGuard, eventInput, eventIsFailure]

/-- The not-found test on an event input coincides with eventHasNotFound. -/
lemma notFound_eventInput (ev : Event) :
    notFoundIn (eventInput ev) = eventHasNotFound ev := by
  cases ev <;> rfl

/-- After the retried latch is set, a step only records the context
response of the event and relays the event verbatim. -/
lemma step_after_retry_full (opts : Options) (s : ReqState) (ev : Event)
    (h : s.retried = true) :
    step opts s ev
      = ({ s with op := eventOpUpdate s.op ev }, [verbatimRelay ev]) := by
  cases ev with
  | complete => rfl
  | next r cr => exact retryStep_retried_true opts _ _ _ h
  | error e cr => exact retryStep_retried_true opts _ _ _ h

/-- After the retried latch is set, every event is relayed verbatim. -/
lemma step_verbatim_after_retry (opts : Options) (s : ReqState) (ev : Event)
    (h : s.retried = true) :
    (step opts s ev).2 = [verbatimRelay ev] := by
  rw [step_after_retry_full opts s ev h]

/-- One step either relays verbatim preserving retried, flag and the
classification count, or performs the one classification of the request,
setting retried and possibly forwarding once. -/
lemma step_characterization (opts : Options) (s : ReqState) (ev : Event) :
    ((step opts s ev).1.retried = s.retried ∧
      (step opts s ev).1.classifications = s.classifications ∧
      (step opts s ev).1.supportsPersistedQueries
          = s.supportsPersistedQueries ∧
      (step opts s ev).2 = [verbatimRelay ev]) ∨
    (s.retried = false ∧ (step opts s ev).1.retried = true ∧
      (step opts s ev).1.classifications = s.classifications + 1 ∧
      ((step opts s ev).2 = [verbatimRelay ev] ∨
        ∃ snap, (step opts s ev).2 = [Action.forward snap])) := by
  rcases Bool.eq_false_or_eq_true s.retried with hr | hr
  case inl =>
    left
    rw [step_after_retry_full opts s ev hr]
    exact ⟨rfl, rfl, rfl, rfl⟩
  case inr =>
    cases ev with
    | complete => left; exact ⟨rfl, rfl, rfl, rfl⟩
    | next r cr =>
      simp only [step]
      by_cases hg : firstFailureGuard s.retried
          (eventInput (Event.next r cr)) = true
      · right
        refine ⟨hr, ?_⟩
        have hg2 : firstFailureGuard
            ({ s with op := eventOpUpdate s.op (Event.next r cr) }).retried
            (eventInput (Event.next r cr)) = true := hg
        by_cases hc : (notFoundIn (eventInput (Event.next r cr))
            || opts.disable (mkPayload
              (eventOpUpdate s.op (Event.next r cr)).ctx
              (eventInput (Event.next r cr)))) = true
        · rw [retryStep_fire opts _ _ _ hg2 hc]
          exact ⟨rfl, rfl, Or.inr ⟨_, rfl⟩⟩
        · rw [retryStep_classify_relay opts _ _ _ hg2
            (by simpa using hc)]
          exact ⟨rfl, rfl, Or.inl rfl⟩
      · left
        have hg2 : firstFailureGuard
            ({ s with op := eventOpUpdate s.op (Event.next r cr) }).retried
            (eventInput (Event.next r cr)) = false :=
          Bool.of_not_eq_true hg
        rw [retryStep_noguard opts _ _ _ hg2]
        exact ⟨rfl, rfl, rfl, rfl⟩
    | error e cr =>
      simp only [step]
      by_cases hg : firstFailureGuard s.retried
          (eventInput (Event.error e cr)) = true
      · right
        refine ⟨hr, ?_⟩
        have hg2 : firstFailureGuard
            ({ s with op := eventOpUpdate s.op (Event.error e cr) }).retried
            (eventInput (Event.error e cr)) = true := hg
        by_cases hc : (notFoundIn (eventInput (Event.error e cr))
            || opts.disable (mkPayload
              (eventOpUpdate s.op (Event.error e cr)).ctx
              (eventInput (Event.error e cr)))) = true
        · rw [retryStep_fire opts _ _ _ hg2 hc]
          exact ⟨rfl, rfl, Or.inr ⟨_, rfl⟩⟩
        · rw [retryStep_classify_relay opts _ _ _ hg2
            (by simpa using hc)]
          exact ⟨rfl, rfl, Or.inl rfl⟩
      · left
        have hg2 : firstFailureGuard
            ({ s with op := eventOpUpdate s.op (Event.error e cr) }).retried
            (eventInput (Event.error e cr)) = false :=
          Bool.of_not_eq_true hg
        rw [retryStep_noguard opts _ _ _ hg2]
        exact ⟨rfl, rfl, rfl, rfl⟩

/-- Remaining retry budget of a request state: one when not yet retried. -/
def pending (s : ReqState) : Nat :=
  cond s.retried 0 1

/-- A verbatim relay is not a forward. -/
lemma countForwards_verbatim (ev : Event) :
    countForwards [verbatimRelay ev] = 0 := by
  cases ev <;> rfl

/-- Folding the handler over any event list forwards at most the remaining
retry budget, and grows the classification count by at most that budget. -/
lemma runEvents_bounds (opts : Options) (events : List Event) :
    ∀ s : ReqState,
      countForwards (runEvents opts s events).2
            + pending (runEvents opts s events).1
          ≤ pending s ∧
      (runEvents opts s events).1.classifications
            + pending (runEvents opts s events).1
          ≤ s.classifications + pending s := by
  induction events with
  | nil =>
    intro s
    simp [runEvents, countForwards]
  | cons ev rest ih =>
    intro s
    obtain ⟨hf, hc⟩ := ih (step opts s ev).1
    simp only [runEvents, countForwards_append]
    rcases step_characterization opts s ev with
      ⟨h1, h2, h3, h4⟩ | ⟨h1, h2, h3, h4⟩
    · have hcv : countForwards (step opts s ev).2 = 0 := by
        rw [h4]
        exact countForwards_verbatim ev
      have hp : pending (step opts s ev).1 = pending s := by
        simp [pending, h1]
      rw [hp] at hf hc
      rw [h2] at hc
      exact ⟨by omega, by omega⟩
    · have hcv : countForwards (step opts s ev).2 ≤ 1 := by
        rcases h4 with h4 | ⟨snap, h4⟩ <;> rw [h4]
        · rw [countForwards_verbatim ev]
          omega
        · simp [countForwards, isForward]
      have hp0 : pending (step opts s ev).1 = 0 := by
        simp [pending, h2]
      have hp1 : pending s = 1 := by
        simp [pending, h1]
      rw [hp0] at hf hc
      rw [h3] at hc
      exact ⟨by omega, by omega⟩

/-- Setting up a request either fails at hashing (no subscription, one error
relay) or forwards exactly once with a fresh subscription state. -/
lemma requestInit_cases (opts : Options) (ck : Nat) (store : HashStore)
    (flag : Bool) (op : Operation) :
    ((requestInit opts ck store flag op).sub = none ∧
      ∃ e, (requestInit opts ck store flag op).actions
          = [Action.relayError (LinkError.hashError e)]) ∨
    (∃ s0 snap, (requestInit opts ck store flag op).sub = some s0 ∧
      (requestInit opts ck store flag op).actions = [Action.forward snap] ∧
      s0.retried = false ∧ s0.classifications = 0 ∧
      s0.supportsPersistedQueries = flag) := by
  cases flag with
  | false => exact Or.inr ⟨_, _, rfl, rfl, rfl, rfl, rfl⟩
  | true =>
    rcases hq : getQueryHash opts.generateHash ck store op.query with
      ⟨res, store1, n⟩
    cases res with
    | ok h =>
      right
      simp only [requestInit, hq]
      exact ⟨_, _, rfl, rfl, rfl, rfl, rfl⟩
    | error e =>
      left
      simp only [requestInit, hq]
      exact ⟨rfl, e, rfl⟩

/-- C2 (amended): per logical request at most two physical forwards occur,
the disable classifier is consulted at most once, and once the retried latch
is set every subsequent outcome is relayed verbatim with no further retry. -/
theorem runRequest_retry_cap (opts : Options) (ck : Nat) (flag : Bool)
    (store : HashStore) (op : Operation) (events : List Event) :
    countForwards (runRequest opts ck flag store op events).actions ≤ 2 ∧
    (runRequest opts ck flag store op events).classifications ≤ 1 ∧
    (∀ (s : ReqState) (ev : Event), s.retried = true →
      (step opts s ev).2 = [verbatimRelay ev]) := by
  refine ⟨?_, ?_, fun s ev h => step_verbatim_after_retry opts s ev h⟩
  · rcases requestInit_cases opts ck store flag op with
      ⟨hsub, e, hact⟩ | ⟨s0, snap, hsub, hact, hr, hc, hflag⟩
    · simp only [runRequest, hsub, hact]
      simp [countForwards, isForward]
    · have hb := (runEvents_bounds opts events s0).1
      have hps : pending s0 = 1 := by
        simp [pending, hr]
      rw [hps] at hb
      simp only [runRequest, hsub, hact, countForwards_append]
      have h1 : countForwards [Action.forward snap] = 1 := rfl
      omega
  · rcases requestInit_cases opts ck store flag op with
      ⟨hsub, e, hact⟩ | ⟨s0, snap, hsub, hact, hr, hc, hflag⟩
    · simp [runRequest, hsub]
    · have hb := (runEvents_bounds opts events s0).2
      have hps : pending s0 = 1 := by
        simp [pending, hr]
      rw [hps, hc] at hb
      simp only [runRequest, hsub]
      omega

/-- Witness for C2 at concrete inputs: a NotFound trace forwards at most
twice, and a retried state relays a success verbatim. -/
theorem runRequest_retry_cap_witness :
    countForwards (runRequest optsDefault 0 true HashStore.empty sampleOp
        [evNotFound, evSuccess]).actions ≤ 2 ∧
    (step optsDefault retriedState evSuccess).2 = [verbatimRelay evSuccess] :=
  ⟨(runRequest_retry_cap optsDefault 0 true HashStore.empty sampleOp
      [evNotFound, evSuccess]).1,
    (runRequest_retry_cap optsDefault 0 true HashStore.empty sampleOp
      [evNotFound, evSuccess]).2.2 retriedState evSuccess rfl⟩

/-- Counterexample refuting the consulted-only-on-the-first-outcome reading of C2:
a request whose first outcome is a success consults the classifier zero
times, yet with a NotFound result as the second outcome of the same request
the classifier is consulted (count one) — i.e. on an outcome that is not the
first observed. -/
theorem classifier_on_second_outcome_counterexample :
    eventIsFailure evSuccess = false ∧
    (runRequest optsDefault 0 true HashStore.empty sampleOp
        [evSuccess]).classifications = 0 ∧
    (runRequest optsDefault 0 true HashStore.empty sampleOp
        [evSuccess, evNotFound]).classifications = 1 :=
  ⟨rfl, rfl, rfl⟩

/-- C1 (amended): within one logical request, once the first failure outcome
has been classified (the retried latch set) the capability flag is not
reassigned again for the remainder of that request; the flag is however
recomputed at the first failure classification of every logical request, so
a flag latched to false is not permanent across requests. -/
theorem step_flag_stable_after_classification (opts : Options)
    (s : ReqState) (ev : Event) (h : s.retried = true) :
    (step opts s ev).1.supportsPersistedQueries = s.supportsPersistedQueries ∧
    (step opts s ev).1.retried = true := by
  rw [step_after_retry_full opts s ev h]
  exact ⟨rfl, h⟩

/-- Witness for the amended C1 at concrete inputs. -/
theorem step_flag_stable_after_classification_witness :
    (step optsDefault retriedState evNetworkError).1.supportsPersistedQueries
        = retriedState.supportsPersistedQueries ∧
    (step optsDefault retriedState evNetworkError).1.retried = true :=
  step_flag_stable_after_classification optsDefault retriedState
    evNetworkError rfl

/-- Counterexample refuting C1 as stated: a first logical request receiving
PersistedQueryNotSupported latches the capability flag to false, but a second
logical request through the same link whose full-document attempt fails with
a plain network error (classified non-disabling by the default policy) resets
the flag to true — the latch is not one-way across requests. -/
theorem capability_flag_reenabled_counterexample :
    (runRequest optsDefault 0 true HashStore.empty sampleOp
        [evNotSupported, evSuccess]).supportsPersistedQueries = false ∧
    (runRequest optsDefault 0
        (runRequest optsDefault 0 true HashStore.empty sampleOp
          [evNotSupported, evSuccess]).supportsPersistedQueries
        (runRequest optsDefault 0 true HashStore.empty sampleOp
          [evNotSupported, evSuccess]).store
        sampleOp [evNetworkError]).supportsPersistedQueries = true :=
  ⟨rfl, rfl⟩

/-- On a not-yet-retried state, a step either fires the retry — exactly when
the outcome is a failure and carries PersistedQueryNotFound or the disable
verdict is positive — forwarding the re-decorated operation, or relays the
outcome verbatim. -/
lemma step_fresh_cases (opts : Options) (s : ReqState) (ev : Event)
    (h : s.retried = false) :
    (eventIsFailure ev = true ∧
      (eventHasNotFound ev = true ∨
        opts.disable (payloadOfEvent s ev) = true) ∧
      (step opts s ev).2 = [Action.forward (snapshotOf (retriedOperation
        { s with op := eventOpUpdate s.op ev }
        (!opts.disable (payloadOfEvent s ev))))]) ∨
    ((eventIsFailure ev = false ∨
        (eventHasNotFound ev = false ∧
          opts.disable (payloadOfEvent s ev) = false)) ∧
      (step opts s ev).2 = [verbatimRelay ev]) := by
  cases ev with
  | complete => exact Or.inr ⟨Or.inl rfl, rfl⟩
  | next r cr =>
    simp only [step]
    have hguard : firstFailureGuard
        ({ s with op := eventOpUpdate s.op (Event.next r cr) }).retried
        (eventInput (Event.next r cr))
          = eventIsFailure (Event.next r cr) := by
      have h2 : ({ s with
          op := eventOpUpdate s.op (Event.next r cr) } : ReqState).retried
            = false := h
      rw [h2]
      exact guard_eventInput (Event.next r cr)
    by_cases hf : eventIsFailure (Event.next r cr) = true
    · by_cases hc : (eventHasNotFound (Event.next r cr) = true ∨
          opts.disable (payloadOfEvent s (Event.next r cr)) = true)
      · have hcnd : (notFoundIn (eventInput (Event.next r cr))
            || opts.disable (payloadOfEvent s (Event.next r cr))) = true := by
          rcases hc with hc | hc
          · rw [notFound_eventInput, hc]
            rw [Bool.true_or]
          · rw [hc, Bool.or_true]
        left
        refine ⟨hf, hc, ?_⟩
        rw [retryStep_fire opts _ _ _ (hguard.trans hf) hcnd]
        rfl
      · push_neg at hc
        obtain ⟨hn, hd⟩ := hc
        have hn2 : eventHasNotFound (Event.next r cr) = false := by
          simpa using hn
        have hd2 : opts.disable (payloadOfEvent s (Event.next r cr))
            = false := by
          simpa using hd
        have hcnd : (notFoundIn (eventInput (Event.next r cr))
            || opts.disable (payloadOfEvent s (Event.next r cr))) = false := by
          rw [notFound_eventInput, hn2, hd2]
          rw [Bool.false_or]
        right
        refine ⟨Or.inr ⟨hn2, hd2⟩, ?_⟩
        rw [retryStep_classify_relay opts _ _ _ (hguard.trans hf) hcnd]
    · right
      have hf2 : eventIsFailure (Event.next r cr) = false := by
        simpa using hf
      refine ⟨Or.inl hf2, ?_⟩
      rw [retryStep_noguard opts _ _ _ (hguard.trans hf2)]
  | error e cr =>
    simp only [step]
    have hguard : firstFailureGuard
        ({ s with op := eventOpUpdate s.op (Event.error e cr) }).retried
        (eventInput (Event.error e cr))
          = eventIsFailure (Event.error e cr) := by
      have h2 : ({ s with
          op := eventOpUpdate s.op (Event.error e cr) } : ReqState).retried
            = false := h
      rw [h2]
      exact guard_eventInput (Event.error e cr)
    have hf : eventIsFailure (Event.error e cr) = true := rfl
    by_cases hd : opts.disable (payloadOfEvent s (Event.error e cr)) = true
    · have hcnd : (notFoundIn (eventInput (Event.error e cr))
          || opts.disable (payloadOfEvent s (Event.error e cr))) = true := by
        rw [hd, Bool.or_true]
      left
      refine ⟨hf, Or.inr hd, ?_⟩
      rw [retryStep_fire opts _ _ _ (hguard.trans hf) hcnd]
      rfl
    · have hd2 : opts.disable (payloadOfEvent s (Event.error e cr))
          = false := by
        simpa using hd
      have hcnd : (notFoundIn (eventInput (Event.error e cr))
          || opts.disable (payloadOfEvent s (Event.error e cr))) = false := by
        rw [notFound_eventInput, hd2]
        rfl
      right
      refine ⟨Or.inr ⟨rfl, hd2⟩, ?_⟩
      rw [retryStep_classify_relay opts _ _ _ (hguard.trans hf) hcnd]


/-- C4: on the first failure outcome of a logical request, a full-document
retry is issued exactly when the errors carry PersistedQueryNotFound or the
(possibly caller-supplied) disable decision fired; when neither holds the
outcome — in particular a plain transport failure — is relayed to the caller
as-is with no retry; and any forwarded retry includes the full document. -/
theorem step_retry_condition (opts : Options) (s : ReqState) (ev : Event)
    (h : s.retried = false) :
    (countForwards (step opts s ev).2 = 1 ↔
      (eventIsFailure ev = true ∧
        (eventHasNotFound ev = true ∨
          opts.disable (payloadOfEvent s ev) = true))) ∧
    ((eventIsFailure ev = true ∧ eventHasNotFound ev = false ∧
        opts.disable (payloadOfEvent s ev) = false) →
      (step opts s ev).2 = [verbatimRelay ev]) ∧
    (∀ snap, Action.forward snap ∈ (step opts s ev).2 →
      snap.http.includeQuery = true) := by
  rcases step_fresh_cases opts s ev h with
    ⟨hf, hcond, hact⟩ | ⟨hside, hact⟩
  · refine ⟨?_, ?_, ?_⟩
    · rw [hact]
      exact iff_of_true rfl ⟨hf, hcond⟩
    · rintro ⟨hf2, hnf2, hd2⟩
      rcases hcond with hc | hc
      · rw [hnf2] at hc
        simp at hc
      · rw [hd2] at hc
        simp at hc
    · intro snap hmem
      rw [hact] at hmem
      simp only [List.mem_singleton, Action.forward.injEq] at hmem
      rw [hmem]
      have hh := (snapshot_retriedOperation
        { s with op := eventOpUpdate s.op ev }
        (!opts.disable (payloadOfEvent s ev))).1
      rw [hh]
  · refine ⟨?_, ?_, ?_⟩
    · rw [hact, countForwards_verbatim ev]
      constructor
      · intro h1
        simp at h1
      · rintro ⟨hf, hcond⟩
        rcases hside with hs | ⟨hnf, hd⟩
        · rw [hf] at hs
          simp at hs
        · rcases hcond with hc | hc
          · rw [hnf] at hc
            simp at hc
          · rw [hd] at hc
            simp at hc
    · intro _
      exact hact
    · intro snap hmem
      rw [hact] at hmem
      cases ev <;> simp [verbatimRelay] at hmem

/-- Witness for C4 at concrete inputs: a network error under the default
policy with no status is relayed as-is, and the forward count is zero. -/
theorem step_retry_condition_witness :
    (countForwards (step optsDefault freshState evNetworkError).2 = 1 ↔
      (eventIsFailure evNetworkError = true ∧
        (eventHasNotFound evNetworkError = true ∨
          optsDefault.disable
            (payloadOfEvent freshState evNetworkError) = true))) ∧
    (step optsDefault freshState evNetworkError).2
        = [verbatimRelay evNetworkError] :=
  ⟨(step_retry_condition optsDefault freshState evNetworkError rfl).1,
    (step_retry_condition optsDefault freshState evNetworkError rfl).2.1
      ⟨rfl, rfl, rfl⟩⟩


/-- On a fresh state that saved original fetch options, a retry-triggering
failure re-forwards with the original fetch options restored, the full
document included, and includeExtensions set from the fresh disable verdict. -/
lemma step_retry_restores_fetchOptions (opts : Options) (s : ReqState)
    (fo : FetchOptions) (h : s.retried = false)
    (hfo : s.originalFetchOptions = some fo) (ev : Event)
    (hf : eventIsFailure ev = true)
    (hc : eventHasNotFound ev = true ∨
      opts.disable (payloadOfEvent s ev) = true) :
    ∃ snap2, (step opts s ev).2 = [Action.forward snap2] ∧
      snap2.fetchOptions = fo ∧
      snap2.http.includeQuery = true ∧
      snap2.http.includeExtensions = !opts.disable (payloadOfEvent s ev) := by
  rcases step_fresh_cases opts s ev h with
    ⟨hf2, hcond2, hact⟩ | ⟨hside, hact⟩
  · have hsn := snapshot_retriedOperation
      { s with op := eventOpUpdate s.op ev }
      (!opts.disable (payloadOfEvent s ev))
    refine ⟨_, hact, ?_, ?_, ?_⟩
    · rw [hsn.2.2]
      have hfo2 : ({ s with op := eventOpUpdate s.op ev } :
          ReqState).originalFetchOptions = some fo := hfo
      rw [hfo2]
    · rw [hsn.1]
    · rw [hsn.1]
  · exfalso
    rcases hside with hs | ⟨hnf, hd⟩
    · rw [hf] at hs
      simp at hs
    · rcases hc with hc | hc
      · rw [hnf] at hc
        simp at hc
      · rw [hd] at hc
        simp at hc

/-- C6: with useGETForHashedQueries set, the capability flag set, and an
operation containing no mutation definitions, the first (hash-only) attempt
is sent with method GET (other fetch options preserved) while the original
fetch options are remembered; a retry-triggering failure then re-forwards
with the original fetch options restored, includeQuery true, and
includeExtensions equal to the just-updated capability verdict. -/
theorem useGET_hashed_first_attempt (opts : Options) (ck : Nat)
    (store : HashStore) (op : Operation) (h : String) (store1 : HashStore)
    (n : Nat)
    (hget : opts.useGETForHashedQueries = true)
    (hq : getQueryHash opts.generateHash ck store op.query
        = (Except.ok h, store1, n))
    (hquery : operationIsQuery op = true) :
    ∃ s0 snap,
      (requestInit opts ck store true op).sub = some s0 ∧
      (requestInit opts ck store true op).actions = [Action.forward snap] ∧
      snap.fetchOptions.method = some ("GET") ∧
      snap.fetchOptions.extra = op.ctx.fetchOptions.extra ∧
      snap.http.includeQuery = false ∧
      snap.http.includeExtensions = true ∧
      s0.originalFetchOptions = some op.ctx.fetchOptions ∧
      s0.retried = false ∧
      (∀ ev, eventIsFailure ev = true →
        (eventHasNotFound ev = true ∨
          opts.disable (payloadOfEvent s0 ev) = true) →
        ∃ snap2, (step opts s0 ev).2 = [Action.forward snap2] ∧
          snap2.fetchOptions = op.ctx.fetchOptions ∧
          snap2.http.includeQuery = true ∧
          snap2.http.includeExtensions
            = !opts.disable (payloadOfEvent s0 ev)) := by
  have hq4 : (!((queryDefinitions op.query).any definitionIsMutation))
      = true := hquery
  simp only [requestInit, hq, hget, Bool.true_and, operationIsQuery,
    hq4, reduceIte]
  refine ⟨_, _, rfl, rfl, rfl, rfl, rfl, rfl, rfl, rfl,
    fun ev hf hc => step_retry_restores_fetchOptions opts _
      op.ctx.fetchOptions rfl rfl ev hf hc⟩

/-- Witness for C6 at concrete inputs. -/
theorem useGET_hashed_first_attempt_witness :
    ∃ s0 snap,
      (requestInit optsGET 0 HashStore.empty true sampleOp).sub = some s0 ∧
      (requestInit optsGET 0 HashStore.empty true sampleOp).actions
          = [Action.forward snap] ∧
      snap.fetchOptions.method = some ("GET") ∧
      snap.fetchOptions.extra = sampleOp.ctx.fetchOptions.extra ∧
      snap.http.includeQuery = false ∧
      snap.http.includeExtensions = true ∧
      s0.originalFetchOptions = some sampleOp.ctx.fetchOptions ∧
      s0.retried = false ∧
      (∀ ev, eventIsFailure ev = true →
        (eventHasNotFound ev = true ∨
          optsGET.disable (payloadOfEvent s0 ev) = true) →
        ∃ snap2, (step optsGET s0 ev).2 = [Action.forward snap2] ∧
          snap2.fetchOptions = sampleOp.ctx.fetchOptions ∧
          snap2.http.includeQuery = true ∧
          snap2.http.includeExtensions
            = !optsGET.disable (payloadOfEvent s0 ev)) :=
  useGET_hashed_first_attempt optsGET 0 HashStore.empty sampleOp ("h0")
    (HashStore.insert HashStore.empty 0 0 ("h0")) 1 rfl rfl rfl

end PQ
